import Mathlib

/-!
Shallow embedding of `pkg/istiodcert/worker.go` from the istio-csr repository:
the dynamic istiod certificate provisioner. The embedding covers the issuer
state guard (`handleNewIssuer`), construction (`New`), the DNS-name
computation (`makeDNSNamesFromRevisions`), the reconcile logic (`Reconcile`,
with the certificate store modelled by an explicit fetch outcome and a list
of emitted store operations), and the identity predicate registered in
`AddControllersToManager`.
-/

namespace IstiodCert

/-- `cmmeta.ObjectReference`: {group, kind, name} of an issuer. -/
structure ObjectReference where
  group : String
  kind : String
  name : String
deriving DecidableEq, Repr

/-- `cmapi.CertificatePrivateKey`: the key settings part of a certificate
spec. `RotationPolicyAlways` is the string constant "Always". -/
structure CertificatePrivateKey where
  rotationPolicy : String
  algorithm : String
  size : Int
deriving DecidableEq, Repr

/-- `cmapi.CertificateSpec`, restricted to the fields `Reconcile` sets.
Durations are modelled as integers (Go `time.Duration` is an int64 count of
nanoseconds). -/
structure CertificateSpec where
  commonName : String
  dnsNames : List String
  uris : List String
  secretName : String
  duration : Int
  renewBefore : Int
  privateKey : CertificatePrivateKey
  revisionHistoryLimit : Int
  issuerRef : ObjectReference
deriving DecidableEq, Repr

/-- `cmapi.Certificate`: object metadata (name, namespace) plus spec. -/
structure Certificate where
  name : String
  ns : String
  spec : CertificateSpec
deriving DecidableEq, Repr

/-- The fields of `istiodcert.Options` that `worker.go` reads. -/
structure Options where
  CertificateName : String
  CertificateNamespace : String
  IstioRevisions : List String
  AdditionalDNSNames : List String
  Duration : Int
  RenewBefore : Int
  CMKeyAlgorithm : String
  KeySize : Int
deriving DecidableEq, Repr

/-- The `event.GenericEvent` sent on `reconcileChan`: its object is a
`cmapi.Certificate` carrying only a name and a namespace. -/
structure GenericEvent where
  objectName : String
  objectNamespace : String
deriving DecidableEq, Repr

/-- The state of a `DynamicIstiodCertProvisioner`: the fields of the Go
struct that carry data (the logger, client, mutex and channels are the
effectful machinery; the mutex makes `handleNewIssuer` and `Reconcile`
atomic, so they are modelled as sequential state transformers). -/
structure DynamicIstiodCertProvisioner where
  opts : Options
  initialIssuerRef : Option ObjectReference
  issuerRef : Option ObjectReference
  trustDomain : String
deriving DecidableEq, Repr

/-- `New` (worker.go:68-92): constructs the provisioner with both
`initialIssuerRef` and `issuerRef` set to the notifier's initial issuer. -/
def New (opts : Options) (initialIssuerRef : Option ObjectReference)
    (trustDomain : String) : DynamicIstiodCertProvisioner :=
  { opts := opts
    initialIssuerRef := initialIssuerRef
    issuerRef := initialIssuerRef
    trustDomain := trustDomain }

/-- `handleNewIssuer` (worker.go:116-138): under the mutex, if the incoming
reference is nil and an initial reference exists, restore the initial
reference and return without emitting an event; otherwise store the incoming
reference and emit one `GenericEvent` naming the configured certificate. -/
def handleNewIssuer (dicp : DynamicIstiodCertProvisioner)
    (issuerRef : Option ObjectReference) :
    DynamicIstiodCertProvisioner × Option GenericEvent :=
  if issuerRef.isNone && dicp.initialIssuerRef.isSome then
    ({ dicp with issuerRef := dicp.initialIssuerRef }, none)
  else
    ({ dicp with issuerRef := issuerRef },
      some { objectName := dicp.opts.CertificateName
             objectNamespace := dicp.opts.CertificateNamespace })

/-- `makeDNSNamesFromRevisions` (worker.go:238-277): an empty revision list
is replaced by `["default"]`; the loop appends `istiod.<ns>.svc` for the
"default" revision and `istiod<r>.<ns>.svc` otherwise; the common name is
always the default SAN. -/
def makeDNSNamesFromRevisions (ns : String) (istioRevisions : List String) :
    String × List String :=
  let istioRevisions :=
    if istioRevisions.length == 0 then ["default"] else istioRevisions
  let defaultSAN := "istiod." ++ ns ++ ".svc"
  let dnsNames := istioRevisions.foldl
    (fun dnsNames revision =>
      if revision == "default" then dnsNames ++ [defaultSAN]
      else dnsNames ++ ["istiod" ++ revision ++ "." ++ ns ++ ".svc"]) []
  (defaultSAN, dnsNames)

/-- The reconcile request: `req.Name` and `req.Namespace`. -/
structure Request where
  name : String
  ns : String
deriving DecidableEq, Repr

/-- Outcome of `certManagerClient.Get`: a certificate, a not-found error
(`apierrors.IsNotFound`), or any other error. -/
inductive GetResult where
  | ok (cert : Certificate)
  | notFound
  | otherError (msg : String)
deriving DecidableEq, Repr

/-- A store operation issued by `Reconcile` against the certificate store. -/
inductive StoreOp where
  | get (name : String)
  | create (cert : Certificate)
  | update (cert : Certificate)
deriving DecidableEq, Repr

/-- `ctrl.Result`: `Reconcile` always returns the zero value
(`ctrl.Result{}`, no requeue). -/
structure CtrlResult where
  requeue : Bool
deriving DecidableEq, Repr

/-- The desired `cmapi.CertificateSpec` assembled in `Reconcile`
(worker.go:187-209): SPIFFE URI from the trust domain and the request's
namespace, common name and DNS names from `makeDNSNamesFromRevisions`,
additional DNS names appended when present, secret name `istiod-tls`,
rotation policy `Always`, revision history limit 1, and the current
issuer reference. -/
def desiredSpec (issuer : ObjectReference) (opts : Options)
    (trustDomain : String) (reqNs : String) : CertificateSpec :=
  let spiffeID :=
    "spiffe://" ++ trustDomain ++ "/ns/" ++ reqNs ++ "/sa/istiod-service-account"
  let cnDNS := makeDNSNamesFromRevisions reqNs opts.IstioRevisions
  let dnsNames :=
    if opts.AdditionalDNSNames.length > 0 then
      cnDNS.2 ++ opts.AdditionalDNSNames
    else cnDNS.2
  { commonName := cnDNS.1
    dnsNames := dnsNames
    uris := [spiffeID]
    secretName := "istiod-tls"
    duration := opts.Duration
    renewBefore := opts.RenewBefore
    privateKey :=
      { rotationPolicy := "Always"
        algorithm := opts.CMKeyAlgorithm
        size := opts.KeySize }
    revisionHistoryLimit := 1
    issuerRef := issuer }

/-- `Reconcile` (worker.go:176-234): if no issuer reference is set, return
success without touching the store. Otherwise assemble the desired spec,
fetch the certificate named by the request; on not-found create a fresh
certificate with the desired spec and return the create's error; on any
other fetch error return that error with no write; on success replace the
fetched certificate's spec wholesale and issue one update, returning the
update's error. The store is modelled by the fetch outcome `getResult` and
by the error results `createErr`/`updateErr` of the two possible writes;
the returned list records the store operations issued, in order. -/
def Reconcile (dicp : DynamicIstiodCertProvisioner) (req : Request)
    (getResult : GetResult) (createErr updateErr : Option String) :
    List StoreOp × CtrlResult × Option String :=
  match dicp.issuerRef with
  | none => ([], { requeue := false }, none)
  | some issuer =>
    let spec := desiredSpec issuer dicp.opts dicp.trustDomain req.ns
    match getResult with
    | GetResult.notFound =>
        ([StoreOp.get req.name,
          StoreOp.create { name := req.name, ns := req.ns, spec := spec }],
         { requeue := false }, createErr)
    | GetResult.otherError msg =>
        ([StoreOp.get req.name],
         { requeue := false }, some ("failed to fetch cert: " ++ msg))
    | GetResult.ok cert =>
        ([StoreOp.get req.name, StoreOp.update { cert with spec := spec }],
         { requeue := false }, updateErr)

/-- The predicate registered in `AddControllersToManager` (worker.go:146-150):
only objects whose name and namespace equal the configured certificate
identity are processed. -/
def certPredicate (opts : Options) (objName objNs : String) : Bool :=
  objName == opts.CertificateName && objNs == opts.CertificateNamespace

/-- Folding a sequence of issuer notifications through `handleNewIssuer`,
keeping only the state (the events go to the reconcile channel). -/
def applyIssuerUpdates (dicp : DynamicIstiodCertProvisioner)
    (updates : List (Option ObjectReference)) : DynamicIstiodCertProvisioner :=
  updates.foldl (fun s u => (handleNewIssuer s u).1) dicp

/-- The specs carried by the write operations (creates and updates) in a
list of store operations. -/
def writtenSpecs : List StoreOp → List CertificateSpec
  | [] => []
  | StoreOp.get _ :: rest => writtenSpecs rest
  | StoreOp.create c :: rest => c.spec :: writtenSpecs rest
  | StoreOp.update c :: rest => c.spec :: writtenSpecs rest

/-- Mapping a single revision to its DNS name, as the spec describes it:
"default" maps to `istiod.<ns>.svc`, any other revision `r` to
`istiod<r>.<ns>.svc`. -/
def dnsNameForRevision (ns : String) (revision : String) : String :=
  if revision == "default" then "istiod." ++ ns ++ ".svc"
  else "istiod" ++ revision ++ "." ++ ns ++ ".svc"

/-- The DNS-name list as the spec describes it: map `dnsNameForRevision`
over the revisions, an empty list standing for `["default"]`. -/
def specDNSNames (ns : String) (revisions : List String) : List String :=
  (if revisions = [] then ["default"] else revisions).map (dnsNameForRevision ns)

/-- A concrete issuer reference used to instantiate proved theorems. -/
def exIssuer : ObjectReference :=
  { group := "cert-manager.io", kind := "Issuer", name := "istio-ca" }

/-- A second concrete issuer reference. -/
def exIssuer2 : ObjectReference :=
  { group := "cert-manager.io", kind := "ClusterIssuer", name := "other-ca" }

/-- Concrete options used to instantiate proved theorems. -/
def exOpts : Options :=
  { CertificateName := "istiod-dynamic"
    CertificateNamespace := "istio-system"
    IstioRevisions := ["default", "canary"]
    AdditionalDNSNames := ["extra.example.com"]
    Duration := 3600000000000
    RenewBefore := 1800000000000
    CMKeyAlgorithm := "RSA"
    KeySize := 2048 }

/-- A concrete provisioner state with an initial issuer. -/
def exState : DynamicIstiodCertProvisioner :=
  New exOpts (some exIssuer) "cluster.local"

/-- A concrete request matching the configured certificate identity. -/
def exReq : Request := { name := "istiod-dynamic", ns := "istio-system" }

theorem makeDNSNamesFromRevisions_snd (ns : String) (revs : List String) :
    (makeDNSNamesFromRevisions ns revs).2 =
      (if revs.length == 0 then ["default"] else revs).map
        (dnsNameForRevision ns) := by
  have h : ∀ (l : List String) (acc : List String),
      l.foldl (fun dnsNames revision =>
        if revision == "default" then dnsNames ++ ["istiod." ++ ns ++ ".svc"]
        else dnsNames ++ ["istiod" ++ revision ++ "." ++ ns ++ ".svc"]) acc
        = acc ++ l.map (dnsNameForRevision ns) := by
    intro l
    induction l with
    | nil => intro acc; simp
    | cons r rest ih =>
      intro acc
      rw [List.foldl_cons, ih, List.map_cons]
      by_cases hr : r = "default" <;>
        simp [hr, dnsNameForRevision, List.append_assoc]
  simp only [makeDNSNamesFromRevisions, h]
  simp

/-- Claim C1: when an initial issuer reference exists, `handleNewIssuer`
with an absent update restores the active issuer reference to the initial
reference and emits no reconcile trigger. -/
theorem handleNewIssuer_absent_restores_initial
    (s : DynamicIstiodCertProvisioner) (initial : ObjectReference)
    (h : s.initialIssuerRef = some initial) :
    handleNewIssuer s none = ({ s with issuerRef := some initial }, none) := by
  simp [handleNewIssuer, h]

/-- Witness for C1 at a concrete state with an initial issuer. -/
theorem handleNewIssuer_absent_restores_initial_witness :
    exState.initialIssuerRef = some exIssuer ∧
    handleNewIssuer exState none =
      ({ exState with issuerRef := some exIssuer }, none) :=
  ⟨rfl, handleNewIssuer_absent_restores_initial exState exIssuer rfl⟩

/-- Claim C2: for every non-absent update, `handleNewIssuer` sets the
active issuer reference to the update and emits exactly one reconcile
trigger carrying the configured certificate name and namespace. -/
theorem handleNewIssuer_update_sets_and_triggers
    (s : DynamicIstiodCertProvisioner) (r : ObjectReference) :
    handleNewIssuer s (some r) =
      ({ s with issuerRef := some r },
        some { objectName := s.opts.CertificateName
               objectNamespace := s.opts.CertificateNamespace }) := by
  simp [handleNewIssuer]

/-- Claim C3: the DNS-name list produced by `makeDNSNamesFromRevisions`
equals the spec-described map over the revisions — "default" to
`istiod.<ns>.svc`, any other `r` to `istiod<r>.<ns>.svc`, in input order,
keeping duplicates, with the empty list treated as `["default"]` — and in
particular the empty list produces exactly `["istiod.<ns>.svc"]`. -/
theorem makeDNSNamesFromRevisions_eq_spec (ns : String) (revs : List String) :
    (makeDNSNamesFromRevisions ns revs).2 = specDNSNames ns revs ∧
    (makeDNSNamesFromRevisions ns []).2 = ["istiod." ++ ns ++ ".svc"] := by
  constructor
  · rw [makeDNSNamesFromRevisions_snd, specDNSNames]
    cases revs <;> simp
  · rw [makeDNSNamesFromRevisions_snd]
    simp [dnsNameForRevision]

/-- Claim C4: the common name returned by `makeDNSNamesFromRevisions` is
always `istiod.<ns>.svc`, whatever the revisions; for namespace "foo" with
revisions ["default","canary"] the common name is "istiod.foo.svc" and the
DNS names are ["istiod.foo.svc", "istiodcanary.foo.svc"] in that order. -/
theorem makeDNSNamesFromRevisions_commonName_default
    (ns : String) (revs : List String) :
    (makeDNSNamesFromRevisions ns revs).1 = "istiod." ++ ns ++ ".svc" ∧
    makeDNSNamesFromRevisions "foo" ["default", "canary"] =
      ("istiod.foo.svc", ["istiod.foo.svc", "istiodcanary.foo.svc"]) := by
  constructor
  · simp [makeDNSNamesFromRevisions]
  · rfl

/-- A provisioner state constructed with no initial issuer. -/
def exStateNoIssuer : DynamicIstiodCertProvisioner :=
  New exOpts none "cluster.local"

/-- A request whose identity differs from the configured certificate. -/
def exReqOther : Request := { name := "other-cert", ns := "elsewhere" }

/-- The desired spec at the concrete example state and request. -/
def exSpec : CertificateSpec :=
  desiredSpec exIssuer exOpts "cluster.local" "istio-system"

/-- The certificate `Reconcile` creates at the concrete example state and
request when the fetch reports not-found. -/
def exCreatedCert : Certificate :=
  { name := "istiod-dynamic", ns := "istio-system", spec := exSpec }

/-- A pre-existing certificate with a stale spec, for the update path. -/
def exOldCert : Certificate :=
  { name := "istiod-dynamic", ns := "istio-system"
    spec := desiredSpec exIssuer2 exOpts "cluster.local" "istio-system" }

/-- Claim C5: with an issuer set, a not-found fetch leads to exactly one
create carrying the desired spec whose result is the outcome; any other
fetch error is returned as the outcome with no write; a successful fetch
leads to exactly one full-spec update of the fetched certificate. -/
theorem Reconcile_store_paths
    (s : DynamicIstiodCertProvisioner) (req : Request)
    (issuer : ObjectReference) (ce ue : Option String)
    (h : s.issuerRef = some issuer) :
    Reconcile s req GetResult.notFound ce ue =
      ([StoreOp.get req.name,
        StoreOp.create
          { name := req.name
            ns := req.ns
            spec := desiredSpec issuer s.opts s.trustDomain req.ns }],
       { requeue := false }, ce) ∧
    (∀ msg, Reconcile s req (GetResult.otherError msg) ce ue =
      ([StoreOp.get req.name],
       { requeue := false }, some ("failed to fetch cert: " ++ msg))) ∧
    (∀ cert, Reconcile s req (GetResult.ok cert) ce ue =
      ([StoreOp.get req.name,
        StoreOp.update
          { cert with spec := desiredSpec issuer s.opts s.trustDomain req.ns }],
       { requeue := false }, ue)) := by
  refine ⟨?_, ?_, ?_⟩ <;> intros <;> simp [Reconcile, h]

/-- Witness for C5 at the concrete example state and request. -/
theorem Reconcile_store_paths_witness :
    exState.issuerRef = some exIssuer ∧
    Reconcile exState exReq GetResult.notFound none none =
      ([StoreOp.get exReq.name,
        StoreOp.create
          { name := exReq.name
            ns := exReq.ns
            spec := desiredSpec exIssuer exState.opts exState.trustDomain
              exReq.ns }],
       { requeue := false }, none) ∧
    Reconcile exState exReq (GetResult.otherError "boom") none none =
      ([StoreOp.get exReq.name],
       { requeue := false }, some ("failed to fetch cert: " ++ "boom")) ∧
    Reconcile exState exReq (GetResult.ok exOldCert) none none =
      ([StoreOp.get exReq.name,
        StoreOp.update
          { exOldCert with
            spec := desiredSpec exIssuer exState.opts exState.trustDomain exReq.ns }],
       { requeue := false }, none) :=
  ⟨rfl,
   (Reconcile_store_paths exState exReq exIssuer none none rfl).1,
   (Reconcile_store_paths exState exReq exIssuer none none rfl).2.1 "boom",
   (Reconcile_store_paths exState exReq exIssuer none none rfl).2.2 exOldCert⟩

/-- Claim C6: with no active issuer reference, `Reconcile` returns success
(no error, no requeue) and issues no store operation at all. -/
theorem Reconcile_absent_issuer_noop
    (s : DynamicIstiodCertProvisioner) (req : Request) (g : GetResult)
    (ce ue : Option String)
    (h : s.issuerRef = none) :
    Reconcile s req g ce ue = ([], { requeue := false }, none) := by
  simp [Reconcile, h]

/-- Witness for C6 at a concrete state constructed with no issuer. -/
theorem Reconcile_absent_issuer_noop_witness :
    exStateNoIssuer.issuerRef = none ∧
    Reconcile exStateNoIssuer exReq GetResult.notFound none none =
      ([], { requeue := false }, none) :=
  ⟨rfl,
   Reconcile_absent_issuer_noop exStateNoIssuer exReq GetResult.notFound
     none none rfl⟩

/-- Claim C7: every certificate written by `Reconcile` (created or updated)
carries a spec with rotation policy "Always", secret name "istiod-tls",
revision-history limit 1, exactly the single SPIFFE URI built from the
trust domain and the request's namespace, the active issuer reference, and
the additional DNS names appended in order after the revision-derived
names. -/
theorem Reconcile_desiredSpec_fields
    (s : DynamicIstiodCertProvisioner) (req : Request)
    (issuer : ObjectReference) (g : GetResult) (ce ue : Option String)
    (c : Certificate)
    (h : s.issuerRef = some issuer)
    (hc : StoreOp.create c ∈ (Reconcile s req g ce ue).1 ∨
          StoreOp.update c ∈ (Reconcile s req g ce ue).1) :
    c.spec.privateKey.rotationPolicy = "Always" ∧
    c.spec.secretName = "istiod-tls" ∧
    c.spec.revisionHistoryLimit = 1 ∧
    c.spec.uris =
      ["spiffe://" ++ s.trustDomain ++ "/ns/" ++ req.ns ++
        "/sa/istiod-service-account"] ∧
    c.spec.issuerRef = issuer ∧
    c.spec.dnsNames =
      (makeDNSNamesFromRevisions req.ns s.opts.IstioRevisions).2 ++
        s.opts.AdditionalDNSNames := by
  have hspec : c.spec = desiredSpec issuer s.opts s.trustDomain req.ns := by
    cases g with
    | ok cert =>
      rcases hc with hc | hc <;> simp [Reconcile, h] at hc
      rw [hc]
    | notFound =>
      rcases hc with hc | hc <;> simp [Reconcile, h] at hc
      rw [hc]
    | otherError msg =>
      rcases hc with hc | hc <;> simp [Reconcile, h] at hc
  rw [hspec]
  refine ⟨rfl, rfl, rfl, rfl, rfl, ?_⟩
  cases hA : s.opts.AdditionalDNSNames <;> simp [desiredSpec, hA]

/-- Witness for C7: the certificate created on the not-found path at the
concrete example state satisfies all the listed spec fields. -/
theorem Reconcile_desiredSpec_fields_witness :
    exState.issuerRef = some exIssuer ∧
    (StoreOp.create exCreatedCert ∈
        (Reconcile exState exReq GetResult.notFound none none).1 ∨
      StoreOp.update exCreatedCert ∈
        (Reconcile exState exReq GetResult.notFound none none).1) ∧
    (exCreatedCert.spec.privateKey.rotationPolicy = "Always" ∧
     exCreatedCert.spec.secretName = "istiod-tls" ∧
     exCreatedCert.spec.revisionHistoryLimit = 1 ∧
     exCreatedCert.spec.uris =
       ["spiffe://" ++ exState.trustDomain ++ "/ns/" ++ exReq.ns ++
         "/sa/istiod-service-account"] ∧
     exCreatedCert.spec.issuerRef = exIssuer ∧
     exCreatedCert.spec.dnsNames =
       (makeDNSNamesFromRevisions exReq.ns exState.opts.IstioRevisions).2 ++
         exState.opts.AdditionalDNSNames) :=
  ⟨rfl, Or.inl (by decide),
   Reconcile_desiredSpec_fields exState exReq exIssuer GetResult.notFound
     none none exCreatedCert rfl (Or.inl (by decide))⟩

theorem handleNewIssuer_preserves_initial
    (s : DynamicIstiodCertProvisioner) (u : Option ObjectReference) :
    ((handleNewIssuer s u).1).initialIssuerRef = s.initialIssuerRef := by
  unfold handleNewIssuer
  split <;> rfl

theorem handleNewIssuer_isSome
    (s : DynamicIstiodCertProvisioner) (u : Option ObjectReference)
    (h : s.initialIssuerRef.isSome = true) :
    ((handleNewIssuer s u).1).issuerRef.isSome = true := by
  unfold handleNewIssuer
  split
  · simpa using h
  · next hcond =>
    cases u with
    | some r => simp
    | none => simp [h] at hcond

theorem applyIssuerUpdates_isSome
    (updates : List (Option ObjectReference))
    (s : DynamicIstiodCertProvisioner)
    (h1 : s.initialIssuerRef.isSome = true)
    (h2 : s.issuerRef.isSome = true) :
    (applyIssuerUpdates s updates).issuerRef.isSome = true := by
  induction updates generalizing s with
  | nil => simpa [applyIssuerUpdates] using h2
  | cons u rest ih =>
    have hstep : applyIssuerUpdates s (u :: rest) =
        applyIssuerUpdates (handleNewIssuer s u).1 rest := rfl
    rw [hstep]
    exact ih _ (by rw [handleNewIssuer_preserves_initial]; exact h1)
      (handleNewIssuer_isSome s u h1)

/-- Claim C8: if a non-absent initial issuer reference is supplied at
construction, the active issuer reference is non-absent in the initial
state and stays non-absent after every sequence of issuer-decision
operations, including absent updates. -/
theorem issuerRef_never_absent (opts : Options) (trustDomain : String)
    (initial : ObjectReference) (updates : List (Option ObjectReference)) :
    (New opts (some initial) trustDomain).issuerRef.isSome = true ∧
    (applyIssuerUpdates (New opts (some initial) trustDomain)
        updates).issuerRef.isSome = true :=
  ⟨rfl, applyIssuerUpdates_isSome updates _ rfl rfl⟩

/-- Claim C9: every spec written by `Reconcile` equals the pure function
`desiredSpec` of the active issuer, the options, the trust domain and the
request's namespace; hence two invocations with the same state and request
(whatever the store returns) write identical desired specs. -/
theorem Reconcile_desiredSpec_deterministic
    (s : DynamicIstiodCertProvisioner) (req : Request)
    (issuer : ObjectReference) (g1 g2 : GetResult)
    (c1 u1 c2 u2 : Option String)
    (h : s.issuerRef = some issuer) :
    (∀ sp ∈ writtenSpecs (Reconcile s req g1 c1 u1).1,
       sp = desiredSpec issuer s.opts s.trustDomain req.ns) ∧
    (∀ sp1 ∈ writtenSpecs (Reconcile s req g1 c1 u1).1,
     ∀ sp2 ∈ writtenSpecs (Reconcile s req g2 c2 u2).1, sp1 = sp2) := by
  have key : ∀ (g : GetResult) (ce ue : Option String),
      ∀ sp ∈ writtenSpecs (Reconcile s req g ce ue).1,
        sp = desiredSpec issuer s.opts s.trustDomain req.ns := by
    intro g ce ue sp hsp
    cases g with
    | ok cert =>
      simp [Reconcile, h, writtenSpecs] at hsp
      exact hsp
    | notFound =>
      simp [Reconcile, h, writtenSpecs] at hsp
      exact hsp
    | otherError msg =>
      simp [Reconcile, h, writtenSpecs] at hsp
  exact ⟨key g1 c1 u1,
    fun sp1 h1 sp2 h2 => (key g1 c1 u1 sp1 h1).trans (key g2 c2 u2 sp2 h2).symm⟩

/-- Witness for C9: the spec created on a not-found fetch and the spec
written by a later update against the fetched certificate are identical. -/
theorem Reconcile_desiredSpec_deterministic_witness :
    exState.issuerRef = some exIssuer ∧
    exSpec ∈ writtenSpecs (Reconcile exState exReq GetResult.notFound none none).1 ∧
    exSpec ∈ writtenSpecs
      (Reconcile exState exReq (GetResult.ok exOldCert) none none).1 ∧
    exSpec = exSpec :=
  ⟨rfl, by decide, by decide,
   (Reconcile_desiredSpec_deterministic exState exReq exIssuer
       GetResult.notFound (GetResult.ok exOldCert) none none none none rfl).2
     exSpec (by decide) exSpec (by decide)⟩

/-- Claim C10: `Reconcile` never compares the request's identity with the
configured certificate name and namespace: even for a request the
registered predicate rejects, it fetches by the request's name, and creates
or updates the resource named by the request with a spec built from the
request's namespace. The single-owned-resource invariant therefore rests on
`certPredicate` alone. -/
theorem Reconcile_ignores_identity
    (s : DynamicIstiodCertProvisioner) (req : Request)
    (issuer : ObjectReference) (ce ue : Option String)
    (h : s.issuerRef = some issuer)
    (_hmismatch : certPredicate s.opts req.name req.ns = false) :
    (∀ g : GetResult,
      ((Reconcile s req g ce ue).1).head? = some (StoreOp.get req.name)) ∧
    Reconcile s req GetResult.notFound ce ue =
      ([StoreOp.get req.name,
        StoreOp.create
          { name := req.name
            ns := req.ns
            spec := desiredSpec issuer s.opts s.trustDomain req.ns }],
       { requeue := false }, ce) ∧
    (∀ cert, Reconcile s req (GetResult.ok cert) ce ue =
      ([StoreOp.get req.name,
        StoreOp.update
          { cert with spec := desiredSpec issuer s.opts s.trustDomain req.ns }],
       { requeue := false }, ue)) := by
  refine ⟨?_, ?_, ?_⟩
  · intro g
    cases g <;> simp [Reconcile, h]
  · simp [Reconcile, h]
  · intro cert
    simp [Reconcile, h]

/-- Witness for C10 at a request whose identity the predicate rejects. -/
theorem Reconcile_ignores_identity_witness :
    exState.issuerRef = some exIssuer ∧
    certPredicate exState.opts exReqOther.name exReqOther.ns = false ∧
    Reconcile exState exReqOther GetResult.notFound none none =
      ([StoreOp.get exReqOther.name,
        StoreOp.create
          { name := exReqOther.name
            ns := exReqOther.ns
            spec := desiredSpec exIssuer exState.opts exState.trustDomain
              exReqOther.ns }],
       { requeue := false }, none) :=
  ⟨rfl, rfl,
   (Reconcile_ignores_identity exState exReqOther exIssuer none none
       rfl rfl).2.1⟩

end IstiodCert
